import Mathlib

/-!
Shallow embedding of `ffexport/parse_db.py`: reading visits and site
metadata out of a Firefox `places.sqlite` database and merging them into
unified `Visit` records.

The database is modelled as in-memory lists of rows of the two tables the
queries touch (`moz_places`, `moz_historyvisits`), plus a flag recording
whether the `moz_meta` table used by the sanity-check probe is present.
The three SQL queries (`VISIT_QUERY`, `SITEDATA_QUERY`, `COMBINED_QUERY`)
are modelled as deterministic functions over that database model;
`VISIT_QUERY` and `COMBINED_QUERY` have the identical join clause
(`FROM moz_historyvisits as V, moz_places as P WHERE V.place_id = P.id`)
and are therefore modelled over the same row sequence.

Connection lifecycle and the `lru_cache` on `_sanity_check` are modelled
by explicit state passing (`ConnState`, `ValState`).
-/

namespace FFExport

/-! ## Timestamps

`single_db_visits` and `read_visits` build the visit timestamp with
`datetime.fromtimestamp(row["visit_date"] / 1_000_000, timezone.utc)`.
We model the stored value as a natural number of microseconds since the
Unix epoch and the resulting `datetime` as a broken-down UTC time.
Python's `/` is float division; it is exact on the values of interest
(multiples of 10^6 below 2^53), and `fromtimestamp` rounds to microsecond
precision, which the exact rational model reproduces there. -/

/-- A broken-down UTC instant, modelling an aware `datetime` in `timezone.utc`. -/
structure UTCTime where
  year : Nat
  month : Nat
  day : Nat
  hour : Nat
  minute : Nat
  second : Nat
  microsecond : Nat
deriving DecidableEq, Repr

/-- Convert a count of days since 1970-01-01 to a (year, month, day) civil
date in the proleptic Gregorian calendar (standard days-to-civil
computation, as performed inside `datetime.fromtimestamp`). -/
def civilFromDays (z0 : Nat) : Nat × Nat × Nat :=
  let z := z0 + 719468
  let era := z / 146097
  let doe := z % 146097
  let yoe := (doe - doe / 1460 + doe / 36524 - doe / 146096) / 365
  let y := yoe + era * 400
  let doy := doe - (365 * yoe + yoe / 4 - yoe / 100)
  let mp := (5 * doy + 2) / 153
  let d := doy - (153 * mp + 2) / 5 + 1
  let m := if mp < 10 then mp + 3 else mp - 9
  (if m ≤ 2 then y + 1 else y, m, d)

/-- `datetime.fromtimestamp(secs + micro/10^6, timezone.utc)` for a
non-negative timestamp split into whole seconds and microseconds. -/
def fromTimestampUTC (secs : Nat) (micro : Nat) : UTCTime :=
  let days := secs / 86400
  let sod := secs % 86400
  let ymd := civilFromDays days
  { year := ymd.1
    month := ymd.2.1
    day := ymd.2.2
    hour := sod / 3600
    minute := sod % 3600 / 60
    second := sod % 60
    microsecond := micro }

/-- `datetime.fromtimestamp(visit_date / 1_000_000, timezone.utc)`:
the stored microsecond count converted to a UTC instant. -/
def mozDatetime (visit_date : Nat) : UTCTime :=
  fromTimestampUTC (visit_date / 1000000) (visit_date % 1000000)

/-! ## Percent decoding

Both query paths call `urllib.parse.unquote` on `url` and on
`preview_image_url`.  We model it at codepoint level: each `%hh` escape
(two hex digits) is replaced by the character with that code, other
characters pass through. -/

/-- Value of a hex digit, if the character is one. -/
def hexVal (c : Char) : Option Nat :=
  if '0' ≤ c ∧ c ≤ '9' then some (c.toNat - '0'.toNat)
  else if 'a' ≤ c ∧ c ≤ 'f' then some (c.toNat - 'a'.toNat + 10)
  else if 'A' ≤ c ∧ c ≤ 'F' then some (c.toNat - 'A'.toNat + 10)
  else none

/-- Replace `%hh` escapes by their single-character equivalent
(model of `urllib.parse.unquote`). -/
def unquoteChars : List Char → List Char
  | [] => []
  | '%' :: c1 :: c2 :: rest =>
    match hexVal c1, hexVal c2 with
    | some h1, some h2 => Char.ofNat (16 * h1 + h2) :: unquoteChars rest
    | _, _ => '%' :: unquoteChars (c1 :: c2 :: rest)
  | c :: rest => c :: unquoteChars rest

/-- `urllib.parse.unquote` on a string. -/
def unquote (s : String) : String :=
  String.mk (unquoteChars s.data)

/-! ## Record types (`ffexport.model`) -/

/-- `MozVisit`: one row per visit event, produced by `single_db_visits`. -/
structure MozVisit where
  url : String
  place_id : Int
  visit_id : Int
  visit_date : UTCTime
  visit_type : Int
deriving DecidableEq, Repr

/-- `MozPlace`: site metadata for one page, produced by `single_db_sitedata`. -/
structure MozPlace where
  place_id : Int
  title : Option String
  description : Option String
  preview_image : Option String
deriving DecidableEq, Repr

/-- `Visit`: the final merged record. -/
structure Visit where
  url : String
  visit_date : UTCTime
  visit_type : Int
  title : Option String
  description : Option String
  preview_image : Option String
deriving DecidableEq, Repr

/-! ## Database model -/

/-- One row of `moz_places`. -/
structure PlaceRow where
  id : Int
  url : String
  title : Option String
  description : Option String
  preview_image_url : Option String
deriving DecidableEq, Repr

/-- One row of `moz_historyvisits`. -/
structure HistoryVisitRow where
  id : Int
  place_id : Int
  visit_date : Nat
  visit_type : Int
deriving DecidableEq, Repr

/-- The slice of a `places.sqlite` database that the queries touch. -/
structure MozDb where
  hasMozMeta : Bool
  moz_places : List PlaceRow
  moz_historyvisits : List HistoryVisitRow
deriving DecidableEq, Repr

/-- Row sequence of the join
`FROM moz_historyvisits as V, moz_places as P WHERE V.place_id = P.id`,
which is the identical FROM/WHERE clause of both `VISIT_QUERY` and
`COMBINED_QUERY` (nested-loop order: visits outer, places inner). -/
def joinRows (db : MozDb) : List (HistoryVisitRow × PlaceRow) :=
  db.moz_historyvisits.flatMap fun v =>
    (db.moz_places.filter fun p => v.place_id == p.id).map fun p => (v, p)

/-- Row sequence of `SITEDATA_QUERY`: the `moz_places` rows
`WHERE P.title IS NOT NULL OR P.description IS NOT NULL OR
P.preview_image_url IS NOT NULL`. -/
def sitedataRows (db : MozDb) : List PlaceRow :=
  db.moz_places.filter fun p =>
    p.title.isSome || p.description.isSome || p.preview_image_url.isSome

/-! ## Row-to-record conversion (`single_db_visits`, `single_db_sitedata`,
`read_visits`), factored over the row sequences the queries return. -/

/-- Body of the loop in `single_db_visits`: build a `MozVisit` from each
row of `VISIT_QUERY`. -/
def single_db_visits_rows (rows : List (HistoryVisitRow × PlaceRow)) :
    List MozVisit :=
  rows.map fun r =>
    { url := unquote r.2.url
      place_id := r.2.id
      visit_id := r.1.id
      visit_date := mozDatetime r.1.visit_date
      visit_type := r.1.visit_type }

/-- Body of the loop in `single_db_sitedata`: build a `MozPlace` from each
row of `SITEDATA_QUERY` (`unquote(pimg) if pimg is not None else None`). -/
def single_db_sitedata_rows (rows : List PlaceRow) : List MozPlace :=
  rows.map fun p =>
    { place_id := p.id
      title := p.title
      description := p.description
      preview_image := p.preview_image_url.map unquote }

/-- `single_db_visits` over the database model. -/
def single_db_visits (db : MozDb) : List MozVisit :=
  single_db_visits_rows (joinRows db)

/-- `single_db_sitedata` over the database model. -/
def single_db_sitedata (db : MozDb) : List MozPlace :=
  single_db_sitedata_rows (sitedataRows db)

/-! ## The merge (`single_db_merge`) -/

/-- The `site_dict: Dict[int, MozPlace]` built by
`for s in site_list: site_dict[s.place_id] = s` — per-row key-to-value
assignment, so a later row with the same key overwrites an earlier one. -/
def site_dict (site_list : List MozPlace) : Int → Option MozPlace :=
  site_list.foldl (fun d s => fun k => if k = s.place_id then some s else d k)
    (fun _ => none)

/-- Body of the visit loop of `single_db_merge`: `t = ds = pi = None`,
overwritten from `site_dict[v.place_id]` when the key is present. -/
def mergeOne (d : Int → Option MozPlace) (v : MozVisit) : Visit :=
  match d v.place_id with
  | some s =>
    { url := v.url
      visit_date := v.visit_date
      visit_type := v.visit_type
      title := s.title
      description := s.description
      preview_image := s.preview_image }
  | none =>
    { url := v.url
      visit_date := v.visit_date
      visit_type := v.visit_type
      title := none
      description := none
      preview_image := none }

/-- `single_db_merge`: build `site_dict` from the full metadata list, then
yield one `Visit` per `MozVisit`, in input order. -/
def single_db_merge (visit_list : List MozVisit) (site_list : List MozPlace) :
    List Visit :=
  visit_list.map (mergeOne (site_dict site_list))

/-- Body of the loop in `read_visits`: build a `Visit` directly from each
row of `COMBINED_QUERY`. -/
def read_visits_rows (rows : List (HistoryVisitRow × PlaceRow)) : List Visit :=
  rows.map fun r =>
    { url := unquote r.2.url
      visit_date := mozDatetime r.1.visit_date
      visit_type := r.1.visit_type
      title := r.2.title
      description := r.2.description
      preview_image := r.2.preview_image_url.map unquote }

/-- `read_visits` over the database model. -/
def read_visits (db : MozDb) : List Visit :=
  read_visits_rows (joinRows db)

/-! ## Connection state

`_execute_conn` mutates two attributes of the connection it is given; when
`_execute_query` receives a path it opens its own connection with
`with sqlite3.connect(...) as c:`.  Per the `sqlite3` documentation, a
`Connection` used as a context manager commits or rolls back the pending
transaction on exit — it does **not** close the connection; only
`Connection.close()` does.  We model a connection's observable
configuration and open/closed status explicitly. -/

/-- Value of `Connection.row_factory`. -/
inductive RowFactory where
  | default
  | sqliteRow
deriving DecidableEq, Repr

/-- Value of `Connection.text_factory`. -/
inductive TextFactory where
  | default
  | lossyDecode
deriving DecidableEq, Repr

/-- Observable state of a `sqlite3.Connection`. -/
structure ConnState where
  rowFactory : RowFactory
  textFactory : TextFactory
  isOpen : Bool
deriving DecidableEq, Repr

/-- `sqlite3.connect(...)`: a fresh connection with default factories. -/
def sqlite3_connect : ConnState :=
  { rowFactory := RowFactory.default
    textFactory := TextFactory.default
    isOpen := true }

/-- `Connection.close()`. -/
def connClose (c : ConnState) : ConnState :=
  { c with isOpen := false }

/-- `Connection.__exit__` as run by a `with` statement on a `sqlite3`
connection: ends the pending transaction (commit or rollback) and leaves
every modelled attribute — including the open status — unchanged. -/
def connContextExit (c : ConnState) : ConnState :=
  c

/-- Effect of `_execute_conn(conn, query)` on the connection it is given:
`conn.row_factory = sqlite3.Row` and
`conn.text_factory = lambda b: b.decode(errors="ignore")` are assigned
before the rows are iterated, and never restored. -/
def execute_conn_effect (c : ConnState) : ConnState :=
  { c with
    rowFactory := RowFactory.sqliteRow
    textFactory := TextFactory.lossyDecode }

/-- The ways driving the generator returned by `_execute_query` can end. -/
inductive ExitMode where
  | exhausted
  | earlyTermination
  | exceptionDuringIteration
deriving DecidableEq, Repr

/-- State, after the generator's `with` block has been left in mode `mode`,
of the connection `_execute_query` itself opened when given a path:
`sqlite3.connect` opens it, `_execute_conn` sets its factories, and on
every exit path the `with` statement runs `Connection.__exit__` (which
does not close it). -/
def execute_query_path_conn (mode : ExitMode) : ConnState :=
  match mode with
  | ExitMode.exhausted => connContextExit (execute_conn_effect sqlite3_connect)
  | ExitMode.earlyTermination => connContextExit (execute_conn_effect sqlite3_connect)
  | ExitMode.exceptionDuringIteration =>
    connContextExit (execute_conn_effect sqlite3_connect)

/-- State of a caller-supplied connection after the generator returned by
`_execute_query(conn, query)` has been driven: no sanity check, no
open/close; only `_execute_conn`'s attribute assignments happen. -/
def execute_query_conn (c : ConnState) : ConnState :=
  execute_conn_effect c

/-! ## Sanity check and its cache

`_sanity_check` opens its own connection, probes `SELECT * from moz_meta`,
and closes the connection in a `finally:` block; a `sqlite3.DatabaseError`
from the probe is logged and re-raised.  The spec calls the propagated
error `SchemaError`.  The function carries `@lru_cache(maxsize=None)`,
which caches the `None` return value per argument — but, per the
`functools` documentation, a call that raises an exception caches
nothing. -/

/-- The error propagated when the probe query fails (the re-raised
`sqlite3.DatabaseError`; `SchemaError` in the spec's taxonomy). -/
inductive SchemaError where
  | mozMetaMissing
deriving DecidableEq, Repr

/-- A source path (the `PathIsh` argument, already stringified). -/
abbrev SqlPath := String

/-- Process-wide state of the memoized `_sanity_check`: the set of paths
whose (successful) validation has been cached, and a count of probe
queries executed so far. -/
structure ValState where
  cache : List SqlPath
  probes : Nat
deriving DecidableEq, Repr

/-- Body of `_sanity_check` (no cache): open a connection, run the probe
query once, close the connection in `finally:` on both paths, and
re-raise the database error when `moz_meta` is absent.  Returns the
result, the probe's own connection, and the number of probe queries
executed (always one). -/
def sanity_check_body (db : MozDb) : Except SchemaError Unit × ConnState × Nat :=
  let conn := sqlite3_connect
  let result : Except SchemaError Unit :=
    if db.hasMozMeta then Except.ok ()
    else Except.error SchemaError.mozMetaMissing
  (result, connClose conn, 1)

/-- `_sanity_check` as actually called: the `lru_cache`-wrapped body.
`world` maps each path to the database behind it.  On a cache hit the
body does not run; on a miss the body runs (one probe), and its result is
cached only when it returns normally — a raised error is not cached. -/
def sanity_check (world : SqlPath → MozDb) (st : ValState) (p : SqlPath) :
    Except SchemaError Unit × ValState :=
  if p ∈ st.cache then (Except.ok (), st)
  else
    let r := sanity_check_body (world p)
    match r.1 with
    | Except.ok _ =>
      (Except.ok (), { cache := p :: st.cache, probes := st.probes + r.2.2 })
    | Except.error e =>
      (Except.error e, { cache := st.cache, probes := st.probes + r.2.2 })

/-- Fully driving the generator `_execute_query(path, query)`: the first
`next()` runs `_sanity_check(path)` before any connection for the query
is opened, so a raised `SchemaError` escapes with zero rows produced.
Returns the rows produced, the error (if any), and the updated
validation-cache state.  `q` is the modelled query (e.g. `joinRows`). -/
def execute_query_path {α : Type} (world : SqlPath → MozDb) (st : ValState)
    (p : SqlPath) (q : MozDb → List α) : List α × Option SchemaError × ValState :=
  match sanity_check world st p with
  | (Except.error e, st') => ([], some e, st')
  | (Except.ok _, st') => (q (world p), none, st')

/-! ## Concrete fixtures used by witnesses -/

/-- A sample `moz_places` row with title metadata. -/
def placeHome : PlaceRow :=
  { id := 1
    url := "https://example.com/home"
    title := some "Home"
    description := none
    preview_image_url := none }

/-- A sample `moz_places` row with no metadata at all. -/
def placeBare : PlaceRow :=
  { id := 2
    url := "https://example.com/bare"
    title := none
    description := none
    preview_image_url := none }

/-- A sample `moz_historyvisits` row pointing at `placeHome`. -/
def visitRow1 : HistoryVisitRow :=
  { id := 10, place_id := 1, visit_date := 1700000000000000, visit_type := 1 }

/-- A sample `moz_historyvisits` row pointing at `placeBare`. -/
def visitRow2 : HistoryVisitRow :=
  { id := 11, place_id := 2, visit_date := 1700000001000000, visit_type := 2 }

/-- A sample database with two visits and one page carrying metadata. -/
def sampleDb : MozDb :=
  { hasMozMeta := true
    moz_places := [placeHome, placeBare]
    moz_historyvisits := [visitRow1, visitRow2] }

/-- A sample database that opens but lacks the `moz_meta` table. -/
def badDb : MozDb :=
  { hasMozMeta := false, moz_places := [], moz_historyvisits := [] }

/-- A sample `MozVisit` pointing at page `pid`. -/
def sampleVisit (pid : Int) : MozVisit :=
  { url := "https://example.com/a"
    place_id := pid
    visit_id := 7
    visit_date := { year := 1970, month := 1, day := 1, hour := 0, minute := 0,
                    second := 0, microsecond := 0 }
    visit_type := 1 }

/-- A sample `MozPlace` for page `pid` with title `t`. -/
def sampleSite (pid : Int) (t : String) : MozPlace :=
  { place_id := pid, title := some t, description := none, preview_image := none }

/-- The `i`-th output record of `single_db_merge` (abbreviation used to
state per-index properties of the merge). -/
def mergedAt (V : List MozVisit) (M : List MozPlace) (i : Nat)
    (h : i < V.length) : Visit :=
  (single_db_merge V M).get ⟨i, by simpa [single_db_merge] using h⟩

/-! ## Helper lemmas about `site_dict` -/

/-- The fold that builds `site_dict`, over an arbitrary initial dictionary:
looking up `k` returns the last inserted row whose `place_id` is `k`
(the first match of the reversed list), falling back to the initial
dictionary. -/
theorem site_dict_go (l : List MozPlace) (d : Int → Option MozPlace) (k : Int) :
    List.foldl (fun d s => fun k => if k = s.place_id then some s else d k) d l k =
      (l.reverse.find? fun s => s.place_id == k).or (d k) := by
  induction l generalizing d with
  | nil => simp
  | cons a t ih =>
    rw [List.foldl_cons, ih, List.reverse_cons, List.find?_append, Option.or_assoc]
    by_cases hk : k = a.place_id
    · simp [List.find?_cons, hk]
    · have hbk : (a.place_id == k) = false := by
        simp only [beq_eq_false_iff_ne, ne_eq]
        exact fun h => hk h.symm
      simp [List.find?_cons, hbk, hk]

/-- `site_dict l` at key `k` is the last row of `l` whose `place_id` is
`k` (overwrite semantics of the per-row dictionary assignment). -/
theorem site_dict_eq (l : List MozPlace) (k : Int) :
    site_dict l k = l.reverse.find? fun s => s.place_id == k := by
  rw [site_dict, site_dict_go]
  simp

/-- Indexing `single_db_merge` output: the `i`-th output is `mergeOne` of
the `i`-th input visit. -/
theorem single_db_merge_get (V : List MozVisit) (M : List MozPlace) (i : Nat)
    (h : i < V.length) :
    (single_db_merge V M).get ⟨i, by simpa [single_db_merge] using h⟩ =
      mergeOne (site_dict M) (V.get ⟨i, h⟩) := by
  simp [single_db_merge, List.get_eq_getElem, List.getElem_map]

/-- `mergedAt` unfolded through `single_db_merge`'s map. -/
theorem mergedAt_eq (V : List MozVisit) (M : List MozPlace) (i : Nat)
    (h : i < V.length) :
    mergedAt V M i h = mergeOne (site_dict M) (V.get ⟨i, h⟩) :=
  single_db_merge_get V M i h

/-- `mergeOne` always copies `url`, `visit_date` and `visit_type` from the
input visit. -/
theorem mergeOne_copies (d : Int → Option MozPlace) (v : MozVisit) :
    (mergeOne d v).url = v.url ∧ (mergeOne d v).visit_date = v.visit_date ∧
    (mergeOne d v).visit_type = v.visit_type := by
  cases hd : d v.place_id <;> simp [mergeOne, hd]

/-- When the dictionary has no entry for the visit's page, `mergeOne`
leaves all three metadata fields null. -/
theorem mergeOne_none (d : Int → Option MozPlace) (v : MozVisit)
    (hd : d v.place_id = none) :
    (mergeOne d v).title = none ∧ (mergeOne d v).description = none ∧
    (mergeOne d v).preview_image = none := by
  simp [mergeOne, hd]

/-- When the dictionary has an entry for the visit's page, `mergeOne`
copies its three metadata fields. -/
theorem mergeOne_some (d : Int → Option MozPlace) (v : MozVisit) (s : MozPlace)
    (hd : d v.place_id = some s) :
    (mergeOne d v).title = s.title ∧ (mergeOne d v).description = s.description ∧
    (mergeOne d v).preview_image = s.preview_image := by
  simp [mergeOne, hd]

/-! ## Claims -/

/-- C1: `single_db_merge` yields exactly one `Visit` per input `MozVisit`,
in input order — the output length equals the input length and the `i`-th
output is a function of the `i`-th input visit alone (no drop,
duplication, or reordering). -/
theorem single_db_merge_one_visit_per_input (V : List MozVisit) (M : List MozPlace) :
    (single_db_merge V M).length = V.length ∧
    ∀ (i : Nat) (h : i < V.length),
      (single_db_merge V M).get ⟨i, by simpa [single_db_merge] using h⟩ =
        mergeOne (site_dict M) (V.get ⟨i, h⟩) := by
  refine ⟨by simp [single_db_merge], ?_⟩
  intro i h
  exact single_db_merge_get V M i h

/-- Witness for C1 on a concrete one-visit input. -/
theorem single_db_merge_one_visit_per_input_witness :
    (single_db_merge [sampleVisit 1] [sampleSite 1 "Home"]).length =
      [sampleVisit 1].length ∧
    (single_db_merge [sampleVisit 1] [sampleSite 1 "Home"]).get ⟨0, by decide⟩ =
      mergeOne (site_dict [sampleSite 1 "Home"]) ([sampleVisit 1].get ⟨0, by decide⟩) :=
  ⟨(single_db_merge_one_visit_per_input [sampleVisit 1] [sampleSite 1 "Home"]).1,
    (single_db_merge_one_visit_per_input [sampleVisit 1] [sampleSite 1 "Home"]).2 0
      (by decide)⟩

/-- C3 (evidence of the divergence): on every exit mode of the generator —
exhaustion, early termination, or an exception during iteration — the
connection `_execute_query` opened for a path input is still open
afterwards, because `with sqlite3.connect(...)` only ends the transaction
on exit and never calls `Connection.close()`. -/
theorem execute_query_path_conn_left_open :
    (execute_query_path_conn ExitMode.exhausted).isOpen = true ∧
    (execute_query_path_conn ExitMode.earlyTermination).isOpen = true ∧
    (execute_query_path_conn ExitMode.exceptionDuringIteration).isOpen = true :=
  ⟨rfl, rfl, rfl⟩

/-- C4 (counterexample): two successive `_sanity_check` calls on the same
path whose database lacks `moz_meta` execute the probe query twice —
`lru_cache` does not cache a call that raises, so a failed validation is
re-probed, contradicting "performs the underlying probe query at most
once" for an identical path. -/
theorem sanity_check_failed_path_reprobed :
    (sanity_check (fun _ => badDb)
      (sanity_check (fun _ => badDb) { cache := [], probes := 0 } "places.sqlite").2
      "places.sqlite").2.probes = 2 := by
  decide

/-- C4 (amended): the validation result is cached only on success — a path
that validates successfully is probed at most once across two calls,
while a path whose validation fails (and is not already cached) is
probed again on every call. -/
theorem sanity_check_cache_success_only (world : SqlPath → MozDb)
    (st : ValState) (p : SqlPath) :
    ((world p).hasMozMeta = true →
      (sanity_check world (sanity_check world st p).2 p).2.probes ≤ st.probes + 1) ∧
    ((world p).hasMozMeta = false → p ∉ st.cache →
      (sanity_check world (sanity_check world st p).2 p).2.probes = st.probes + 2) := by
  constructor
  · intro hgood
    by_cases hc : p ∈ st.cache
    · simp [sanity_check, hc]
    · simp [sanity_check, hc, sanity_check_body, hgood]
  · intro hbad hc
    simp [sanity_check, hc, sanity_check_body, hbad]

/-- Witness for C4's amended claim on a concrete valid path. -/
theorem sanity_check_cache_success_only_witness :
    ((fun _ => sampleDb) "places.sqlite").hasMozMeta = true ∧
    (sanity_check (fun _ => sampleDb)
      (sanity_check (fun _ => sampleDb) { cache := [], probes := 0 } "places.sqlite").2
      "places.sqlite").2.probes ≤ 0 + 1 :=
  ⟨rfl,
    (sanity_check_cache_success_only (fun _ => sampleDb) { cache := [], probes := 0 }
      "places.sqlite").1 rfl⟩

/-- C7: querying a path whose database opens but lacks `moz_meta` (and is
not already cached as valid) raises the schema error with zero rows
produced, after exactly one probe — the error is not retried and the
failed query yields nothing rather than a truncated sequence. -/
theorem execute_query_schema_error_yields_no_rows {α : Type}
    (world : SqlPath → MozDb) (st : ValState) (p : SqlPath) (q : MozDb → List α)
    (hmeta : (world p).hasMozMeta = false) (hc : p ∉ st.cache) :
    execute_query_path world st p q =
      ([], some SchemaError.mozMetaMissing,
        { cache := st.cache, probes := st.probes + 1 }) := by
  simp [execute_query_path, sanity_check, sanity_check_body, hc, hmeta]

/-- Witness for C7 on a concrete schema-less database. -/
theorem execute_query_schema_error_yields_no_rows_witness :
    ((fun _ => badDb) "places.sqlite").hasMozMeta = false ∧
    "places.sqlite" ∉ ([] : List SqlPath) ∧
    execute_query_path (fun _ => badDb) { cache := [], probes := 0 }
      "places.sqlite" joinRows =
      ([], some SchemaError.mozMetaMissing, { cache := [], probes := 0 + 1 }) :=
  ⟨rfl, by decide,
    execute_query_schema_error_yields_no_rows (fun _ => badDb)
      { cache := [], probes := 0 } "places.sqlite" joinRows rfl (by decide)⟩

/-- C8: `single_db_visits` converts the stored microsecond count to a UTC
instant; in particular `1700000000000000` μs converts to
2023-11-14T22:13:20Z. -/
theorem single_db_visits_timestamp_utc (v : HistoryVisitRow) (p : PlaceRow)
    (h : v.visit_date = 1700000000000000) :
    (single_db_visits_rows [(v, p)]).map (fun mv => mv.visit_date) =
      [{ year := 2023, month := 11, day := 14, hour := 22, minute := 13,
         second := 20, microsecond := 0 }] := by
  simp only [single_db_visits_rows, List.map_cons, List.map_nil, h]
  decide

/-- Witness for C8 on a concrete visit row. -/
theorem single_db_visits_timestamp_utc_witness :
    visitRow1.visit_date = 1700000000000000 ∧
    (single_db_visits_rows [(visitRow1, placeHome)]).map (fun mv => mv.visit_date) =
      [{ year := 2023, month := 11, day := 14, hour := 22, minute := 13,
         second := 20, microsecond := 0 }] :=
  ⟨rfl, single_db_visits_timestamp_utc visitRow1 placeHome rfl⟩

/-- C9: driving a query on a caller-supplied connection sets its
`row_factory` to `sqlite3.Row` and replaces its `text_factory` by the
lossy byte decoder, and both settings remain changed afterwards. -/
theorem execute_query_conn_mutates_caller_connection (c : ConnState) :
    (execute_query_conn c).rowFactory = RowFactory.sqliteRow ∧
    (execute_query_conn c).textFactory = TextFactory.lossyDecode :=
  ⟨rfl, rfl⟩

/-- Witness for C9 on a fresh default-configured connection. -/
theorem execute_query_conn_mutates_caller_connection_witness :
    (execute_query_conn sqlite3_connect).rowFactory = RowFactory.sqliteRow ∧
    (execute_query_conn sqlite3_connect).textFactory = TextFactory.lossyDecode :=
  execute_query_conn_mutates_caller_connection sqlite3_connect

/-- C10: the sanity-check probe closes its own connection on every exit
path — when the probe succeeds and when it raises the schema error, the
connection it opened is closed (the `finally:` block) before the result
propagates. -/
theorem sanity_check_closes_probe_connection (db : MozDb) :
    (db.hasMozMeta = true →
      (sanity_check_body db).1 = Except.ok () ∧
        (sanity_check_body db).2.1.isOpen = false) ∧
    (db.hasMozMeta = false →
      (sanity_check_body db).1 = Except.error SchemaError.mozMetaMissing ∧
        (sanity_check_body db).2.1.isOpen = false) := by
  constructor <;> intro h <;>
    simp [sanity_check_body, h, connClose, sqlite3_connect]

/-- Witness for C10 on a concrete failing database. -/
theorem sanity_check_closes_probe_connection_witness :
    badDb.hasMozMeta = false ∧
    ((sanity_check_body badDb).1 = Except.error SchemaError.mozMetaMissing ∧
      (sanity_check_body badDb).2.1.isOpen = false) :=
  ⟨rfl, (sanity_check_closes_probe_connection badDb).2 rfl⟩

/-- C5: each output of `single_db_merge` copies `url`, `visit_date` and
`visit_type` from its input visit; when no metadata row shares the
visit's `page_id` the three metadata fields are all null, and when one
does, the three fields are copied from some metadata row with that
`page_id`. -/
theorem single_db_merge_field_semantics (V : List MozVisit) (M : List MozPlace)
    (i : Nat) (h : i < V.length) :
    (mergedAt V M i h).url = (V.get ⟨i, h⟩).url ∧
    (mergedAt V M i h).visit_date = (V.get ⟨i, h⟩).visit_date ∧
    (mergedAt V M i h).visit_type = (V.get ⟨i, h⟩).visit_type ∧
    ((∀ m ∈ M, m.place_id ≠ (V.get ⟨i, h⟩).place_id) →
      (mergedAt V M i h).title = none ∧
      (mergedAt V M i h).description = none ∧
      (mergedAt V M i h).preview_image = none) ∧
    ((∃ m ∈ M, m.place_id = (V.get ⟨i, h⟩).place_id) →
      ∃ s ∈ M, s.place_id = (V.get ⟨i, h⟩).place_id ∧
        (mergedAt V M i h).title = s.title ∧
        (mergedAt V M i h).description = s.description ∧
        (mergedAt V M i h).preview_image = s.preview_image) := by
  rw [mergedAt_eq]
  obtain ⟨hu, hd, ht⟩ := mergeOne_copies (site_dict M) (V.get ⟨i, h⟩)
  refine ⟨hu, hd, ht, ?_, ?_⟩
  · intro hnone
    apply mergeOne_none
    rw [site_dict_eq]
    apply List.find?_eq_none.2
    intro x hx
    rw [List.mem_reverse] at hx
    simp only [beq_iff_eq]
    exact hnone x hx
  · rintro ⟨m, hm, hid⟩
    have hsome : ((site_dict M (V.get ⟨i, h⟩).place_id)).isSome := by
      rw [site_dict_eq]
      refine List.find?_isSome.2 ⟨m, List.mem_reverse.2 hm, ?_⟩
      simp [hid]
    obtain ⟨s, hs⟩ := Option.isSome_iff_exists.1 hsome
    have hsfind : M.reverse.find?
        (fun x => x.place_id == (V.get ⟨i, h⟩).place_id) = some s := by
      rw [← site_dict_eq]
      exact hs
    have hsid : s.place_id = (V.get ⟨i, h⟩).place_id := by
      have := List.find?_some hsfind
      simpa using this
    exact ⟨s, List.mem_reverse.1 (List.mem_of_find?_eq_some hsfind), hsid,
      mergeOne_some _ _ _ hs⟩

/-- Witness for C5 on a concrete input with no matching metadata row. -/
theorem single_db_merge_field_semantics_witness :
    (mergedAt [sampleVisit 5] [sampleSite 1 "Home"] 0 (by decide)).url =
      ([sampleVisit 5].get ⟨0, by decide⟩).url ∧
    (∀ m ∈ [sampleSite 1 "Home"],
      m.place_id ≠ ([sampleVisit 5].get ⟨0, by decide⟩).place_id) ∧
    ((mergedAt [sampleVisit 5] [sampleSite 1 "Home"] 0 (by decide)).title = none ∧
     (mergedAt [sampleVisit 5] [sampleSite 1 "Home"] 0 (by decide)).description = none ∧
     (mergedAt [sampleVisit 5] [sampleSite 1 "Home"] 0 (by decide)).preview_image = none) :=
  ⟨(single_db_merge_field_semantics [sampleVisit 5] [sampleSite 1 "Home"] 0
      (by decide)).1,
    by decide,
    (single_db_merge_field_semantics [sampleVisit 5] [sampleSite 1 "Home"] 0
      (by decide)).2.2.2.1 (by decide)⟩

/-- C6: when several metadata rows share the visit's `page_id`, the merge
uses the last such row in the metadata sequence's iteration order (the
first match of the reversed sequence), by the overwrite semantics of the
dictionary construction. -/
theorem single_db_merge_last_metadata_wins (V : List MozVisit)
    (M : List MozPlace) (i : Nat) (h : i < V.length) (m : MozPlace)
    (hfind : M.reverse.find?
      (fun s => s.place_id == (V.get ⟨i, h⟩).place_id) = some m) :
    (mergedAt V M i h).title = m.title ∧
    (mergedAt V M i h).description = m.description ∧
    (mergedAt V M i h).preview_image = m.preview_image := by
  rw [mergedAt_eq]
  apply mergeOne_some
  rw [site_dict_eq]
  exact hfind

/-- Witness for C6 on a concrete input with a duplicated `page_id`. -/
theorem single_db_merge_last_metadata_wins_witness :
    ([sampleSite 1 "first", sampleSite 1 "second"].reverse.find?
      (fun s => s.place_id == ([sampleVisit 1].get ⟨0, by decide⟩).place_id)) =
      some (sampleSite 1 "second") ∧
    ((mergedAt [sampleVisit 1] [sampleSite 1 "first", sampleSite 1 "second"] 0
        (by decide)).title = (sampleSite 1 "second").title ∧
     (mergedAt [sampleVisit 1] [sampleSite 1 "first", sampleSite 1 "second"] 0
        (by decide)).description = (sampleSite 1 "second").description ∧
     (mergedAt [sampleVisit 1] [sampleSite 1 "first", sampleSite 1 "second"] 0
        (by decide)).preview_image = (sampleSite 1 "second").preview_image) :=
  ⟨by decide,
    single_db_merge_last_metadata_wins [sampleVisit 1]
      [sampleSite 1 "first", sampleSite 1 "second"] 0 (by decide)
      (sampleSite 1 "second") (by decide)⟩

/-- In a place list with pairwise-distinct ids, equal ids force equal rows. -/
theorem place_id_injective {l : List PlaceRow}
    (huniq : l.Pairwise fun a b => a.id ≠ b.id) {p q : PlaceRow}
    (hp : p ∈ l) (hq : q ∈ l) (hid : p.id = q.id) : p = q := by
  by_contra hne
  have hsymm : Symmetric fun a b : PlaceRow => a.id ≠ b.id :=
    fun _ _ hab e => hab e.symm
  exact huniq.forall hsymm hp hq hne hid

/-- With pairwise-distinct `moz_places` ids, looking a page's id up in the
dictionary built from the metadata query yields exactly that page's
metadata record when the page carries any metadata, and nothing
otherwise. -/
theorem site_dict_sitedata (db : MozDb)
    (huniq : db.moz_places.Pairwise fun a b => a.id ≠ b.id)
    (p : PlaceRow) (hp : p ∈ db.moz_places) :
    site_dict (single_db_sitedata db) p.id =
      (if p.title.isSome || p.description.isSome || p.preview_image_url.isSome
       then some { place_id := p.id, title := p.title, description := p.description,
                   preview_image := p.preview_image_url.map unquote }
       else none) := by
  rw [site_dict_eq]
  unfold single_db_sitedata single_db_sitedata_rows
  rw [← List.map_reverse, List.find?_map]
  have hpred : ((fun s : MozPlace => s.place_id == p.id) ∘
      (fun q : PlaceRow =>
        ({ place_id := q.id, title := q.title, description := q.description,
           preview_image := q.preview_image_url.map unquote } : MozPlace))) =
      fun q : PlaceRow => q.id == p.id := rfl
  rw [hpred]
  by_cases hmeta :
      (p.title.isSome || p.description.isSome || p.preview_image_url.isSome) = true
  · have hpmem : p ∈ (sitedataRows db).reverse := by
      rw [List.mem_reverse]
      exact List.mem_filter.2 ⟨hp, hmeta⟩
    have hsome : ((sitedataRows db).reverse.find? fun q => q.id == p.id).isSome :=
      List.find?_isSome.2 ⟨p, hpmem, by simp⟩
    obtain ⟨q, hq⟩ := Option.isSome_iff_exists.1 hsome
    have hqid : q.id = p.id := by simpa using List.find?_some hq
    have hqmem : q ∈ db.moz_places := by
      have hmem := List.mem_of_find?_eq_some hq
      rw [List.mem_reverse] at hmem
      exact (List.mem_filter.1 hmem).1
    rw [hq, place_id_injective huniq hqmem hp hqid, if_pos hmeta]
    rfl
  · have hnone : (sitedataRows db).reverse.find? (fun q => q.id == p.id) = none := by
      apply List.find?_eq_none.2
      intro x hx hxid
      rw [List.mem_reverse] at hx
      obtain ⟨hxmem, hxmeta⟩ := List.mem_filter.1 hx
      have hxp : x = p := place_id_injective huniq hxmem hp (by simpa using hxid)
      rw [hxp] at hxmeta
      exact hmeta hxmeta
    rw [hnone, if_neg hmeta]
    rfl

/-- C2: with distinct `moz_places` ids (the table's primary key), the
combined-query path produces exactly the `Visit` sequence obtained by
running the visits query and the metadata query and reconciling them
with `single_db_merge` — same records, same fields (including the
percent-decoded `url` and `preview_image`), same order. -/
theorem read_visits_eq_visits_merge (db : MozDb)
    (huniq : db.moz_places.Pairwise fun a b => a.id ≠ b.id) :
    read_visits db =
      single_db_merge (single_db_visits db) (single_db_sitedata db) := by
  unfold read_visits read_visits_rows single_db_merge single_db_visits
    single_db_visits_rows
  rw [List.map_map]
  apply List.map_congr_left
  intro r hr
  obtain ⟨v, p⟩ := r
  have hp : p ∈ db.moz_places := by
    unfold joinRows at hr
    rw [List.mem_flatMap] at hr
    obtain ⟨w, _, hr2⟩ := hr
    rw [List.mem_map] at hr2
    obtain ⟨s, hsf, hse⟩ := hr2
    have : s = p := congrArg Prod.snd hse
    rw [← this]
    exact (List.mem_filter.1 hsf).1
  have key := site_dict_sitedata db huniq p hp
  by_cases hmeta :
      (p.title.isSome || p.description.isSome || p.preview_image_url.isSome) = true
  · have hd : site_dict (single_db_sitedata db) p.id =
        some { place_id := p.id, title := p.title, description := p.description,
               preview_image := p.preview_image_url.map unquote } :=
      key.trans (if_pos hmeta)
    simp [mergeOne, hd]
  · have hd : site_dict (single_db_sitedata db) p.id = none :=
      key.trans (if_neg hmeta)
    simp only [Bool.or_eq_true, not_or] at hmeta
    have h1 : p.title = none := Option.not_isSome_iff_eq_none.1 hmeta.1.1
    have h2 : p.description = none := Option.not_isSome_iff_eq_none.1 hmeta.1.2
    have h3 : p.preview_image_url = none := Option.not_isSome_iff_eq_none.1 hmeta.2
    simp [mergeOne, hd, h1, h2, h3]

/-- Witness for C2 on a concrete two-visit database. -/
theorem read_visits_eq_visits_merge_witness :
    sampleDb.moz_places.Pairwise (fun a b => a.id ≠ b.id) ∧
    read_visits sampleDb =
      single_db_merge (single_db_visits sampleDb) (single_db_sitedata sampleDb) :=
  ⟨by decide, read_visits_eq_visits_merge sampleDb (by decide)⟩

end FFExport
